import Mathlib

/-!
Verification of the Pomodoro timer automation script
(`src/projects/python timer.py`) in a shallow embedding.

The script drives a browser through alternating Work/Break timer sessions.
All external effects (the Selenium driver, the OS filesystem, `time.sleep`,
`print`) are modelled by explicit environment records of stub outcomes and
by an event trace of type `List Ev`.  Each Python method becomes a Lean
function from its environment to a result together with the events it
emits, in the order the source emits them.  A `KeyboardInterrupt` delivered
during a session's minute-by-minute sleep loop is modelled by the
`interruptAtMinute` field of the session environment; the claims under
check mention no other interrupt point.
-/

namespace PomodoroTimer

/-- Session kind: `work` or `brk` (a break). Mirrors the two tabs /
the two session functions of the source. -/
inductive SessionType where
  | work
  | brk
  deriving DecidableEq, Repr

/-- Observable events, one constructor per distinct console message or
effect of the source; `sleep ms` records a completed `time.sleep` call in
milliseconds, `dot` records one progress marker printed by the
minute-by-minute loop. -/
inductive Ev where
  | foundBrave (path : String)
  | notFoundMsg
  | searchedPathsMsg
  | candidatePath (path : String)
  | sessionHeader (t : SessionType)
  | errorSwitchingTabs
  | errorStoppingTimer
  | timerSet (minutes : Nat)
  | errorSettingTimerDuration
  | warnCouldNotSetDuration
  | timerStarted
  | couldNotFindStartButton
  | errorStartingTimer
  | warnCouldNotStartTimer
  | sessionActive (minutes : Nat)
  | expectedCompletion
  | progressLabel
  | dot
  | doneMsg
  | sessionCompleted (t : SessionType)
  | loopBanner
  | cycleHeader (n : Nat)
  | errorWorkRetry
  | errorBreakRetry
  | cycleCompleted (n : Nat)
  | stoppedByUser
  | totalSessions (n : Nat)
  | cleaningUp
  | goodbye
  | sleep (ms : Nat)
  deriving DecidableEq, Repr

/-- The fields of `PomodoroAutomation.__init__` that the claims use
(the driver and tab handles live in the environments instead). -/
structure PomodoroAutomation where
  work_duration : Nat := 25
  break_duration : Nat := 5
  timer_url : String := "https://vclock.com/timer/"
  browser_type : String := "Brave"

/-- The three branches of `platform.system()` that the source
distinguishes. -/
inductive Platform where
  | windows
  | darwin
  | linux
  deriving DecidableEq, Repr

/-- Operating-system stub for `find_brave_path`: the platform, the
`os.path.exists` oracle, and the path-expansion helpers
(`os.path.expandvars`, `os.path.expanduser`, `os.path.join`). -/
structure OsEnv where
  system : Platform
  pathExists : String → Bool
  expandvars : String → String
  expanduser : String → String
  join : String → String → String

/-- The `possible_paths` list built by `find_brave_path`, per platform,
in source order. -/
def possible_paths (env : OsEnv) : List String :=
  match env.system with
  | .windows =>
      [ "C:\\Program Files\\BraveSoftware\\Brave-Browser\\Application\\brave.exe"
      , "C:\\Program Files (x86)\\BraveSoftware\\Brave-Browser\\Application\\brave.exe"
      , env.expandvars "%LOCALAPPDATA%\\BraveSoftware\\Brave-Browser\\Application\\brave.exe"
      , env.expandvars "%PROGRAMFILES%\\BraveSoftware\\Brave-Browser\\Application\\brave.exe"
      , env.expandvars "%PROGRAMFILES(X86)%\\BraveSoftware\\Brave-Browser\\Application\\brave.exe"
      , env.join (env.expanduser "~") "AppData\\Local\\BraveSoftware\\Brave-Browser\\Application\\brave.exe" ]
  | .darwin =>
      [ "/Applications/Brave Browser.app/Contents/MacOS/Brave Browser"
      , env.expanduser "~/Applications/Brave Browser.app/Contents/MacOS/Brave Browser" ]
  | .linux =>
      [ "/usr/bin/brave-browser"
      , "/usr/bin/brave"
      , "/usr/local/bin/brave-browser"
      , "/usr/local/bin/brave"
      , "/opt/brave.com/brave/brave-browser"
      , "/opt/brave.com/brave/brave"
      , "/snap/bin/brave"
      , env.expanduser "~/.local/bin/brave"
      , env.expanduser "~/.local/bin/brave-browser" ]

/-- The `for path in possible_paths` probe loop of `find_brave_path`:
first path for which `os.path.exists` holds, else `None`. -/
def find_loop (env : OsEnv) : List String → Option String
  | [] => none
  | p :: rest => if env.pathExists p then some p else find_loop env rest

/-- `find_brave_path`: probe the candidate list; on success print the
found path, on failure print the not-found banner and the first three
candidate paths (the source slices `possible_paths[:3]`). -/
def find_brave_path (env : OsEnv) : Option String × List Ev :=
  match find_loop env (possible_paths env) with
  | some p => (some p, [Ev.foundBrave p])
  | none =>
      (none, Ev.notFoundMsg :: Ev.searchedPathsMsg ::
        ((possible_paths env).take 3).map Ev.candidatePath)

/-- Outcome of one session function (`start_work_timer` /
`start_break_timer`): the Python `True` / `False` return, or a
`KeyboardInterrupt` escaping the minute-sleep loop. -/
inductive SessResult where
  | success
  | failure
  | interrupted
  deriving DecidableEq, Repr

/-- Stub outcomes of the driver calls made during one session.
`switchOk`: `driver.switch_to.window` succeeds; `refreshRaises`:
`driver.refresh` in `stop_timer` raises; `setScriptRaises` /
`setFallbackRaises`: the two duration-set attempts of
`set_timer_duration` raise; `startScriptRaises` / `startScriptResult`:
behaviour of the `execute_script` call in `start_timer`; `clickable`:
which XPath selector the fallback `WebDriverWait` resolves to a
clickable button; `interruptAtMinute`: index (0-based) of the
minute-sleep during which a `KeyboardInterrupt` is delivered, if any. -/
structure SessEnv where
  switchOk : Bool
  refreshRaises : Bool
  setScriptRaises : Bool
  setFallbackRaises : Bool
  startScriptRaises : Bool
  startScriptResult : Bool
  clickable : String → Bool
  interruptAtMinute : Option Nat

/-- `switch_tab`: switch the driver to the given tab, settle 1.5 s;
on an exception log and return `False`. -/
def switch_tab (e : SessEnv) : Bool × List Ev :=
  if e.switchOk then (true, [Ev.sleep 1500])
  else (false, [Ev.errorSwitchingTabs])

/-- `stop_timer`: refresh the page (reset), settle 4 s; on an
exception log and return `False`. -/
def stop_timer (e : SessEnv) : Bool × List Ev :=
  if e.refreshRaises then (false, [Ev.errorStoppingTimer])
  else (true, [Ev.sleep 4000])

/-- `set_timer_duration minutes`: settle 2 s, run the DOM script, settle
1 s and log on success; if the script raises, log the error and fall
back to heuristic input-field typing (settle 1 s, return `True`); if
the fallback also raises, return `False`. -/
def set_timer_duration (e : SessEnv) (minutes : Nat) : Bool × List Ev :=
  if e.setScriptRaises then
    if e.setFallbackRaises then
      (false, [Ev.sleep 2000, Ev.errorSettingTimerDuration])
    else
      (true, [Ev.sleep 2000, Ev.errorSettingTimerDuration, Ev.sleep 1000])
  else
    (true, [Ev.sleep 2000, Ev.sleep 1000, Ev.timerSet minutes])

/-- The four XPath selectors tried in order by `start_timer`'s Selenium
fallback. -/
def selectors : List String :=
  [ "//button[contains(translate(text(), \x27START\x27, \x27start\x27), \x27start\x27)]"
  , "//input[@type=\x27button\x27 and contains(translate(@value, \x27START\x27, \x27start\x27), \x27start\x27)]"
  , "//button[contains(@class, \x27start\x27)]"
  , "//button[contains(@id, \x27start\x27)]" ]

/-- `start_timer`: settle 1 s, run the scripted start-button lookup; if
it raises, log the error and return `False`; if it returns `true`, the
timer started; otherwise try the XPath selectors in order and click the
first clickable one; if none works, log that the start button was not
found and return `True` anyway (optimistic continuation). -/
def start_timer (e : SessEnv) : Bool × List Ev :=
  if e.startScriptRaises then (false, [Ev.sleep 1000, Ev.errorStartingTimer])
  else if e.startScriptResult then (true, [Ev.sleep 1000, Ev.timerStarted])
  else
    match selectors.find? e.clickable with
    | some _ => (true, [Ev.sleep 1000, Ev.timerStarted])
    | none => (true, [Ev.sleep 1000, Ev.couldNotFindStartButton])

/-- The per-minute progress loop `for i in range(duration)`: print one
dot, sleep 60 s.  `intr = some i` delivers a `KeyboardInterrupt` during
the sleep of minute `i` (the dot for that minute has already been
printed); the first component is `false` when the loop was interrupted. -/
def progress_dots (intr : Option Nat) : Nat → Nat → Bool × List Ev
  | _, 0 => (true, [])
  | i, n + 1 =>
    if intr = some i then (false, [Ev.dot])
    else
      let r := progress_dots intr (i + 1) n
      (r.1, Ev.dot :: Ev.sleep 60000 :: r.2)

/-- Shared body of `start_work_timer` and `start_break_timer` (the two
source functions are identical except for the tab handle, the duration
field and the session label): switch tab (fail the session if that
fails), settle 2 s, reset via `stop_timer` (result ignored), settle 2 s,
set the duration (warn on failure), settle 1 s, trigger start (warn on
failure), then run the minute-by-minute progress loop and return
`True`. -/
def run_session (e : SessEnv) (t : SessionType) (minutes : Nat) :
    SessResult × List Ev :=
  let hdr : List Ev := [Ev.sessionHeader t]
  let sw := switch_tab e
  if sw.1 then
    let stp := stop_timer e
    let sd := set_timer_duration e minutes
    let warn1 : List Ev := if sd.1 then [] else [Ev.warnCouldNotSetDuration]
    let str := start_timer e
    let warn2 : List Ev := if str.1 then [] else [Ev.warnCouldNotStartTimer]
    let pd := progress_dots e.interruptAtMinute 0 minutes
    let evs : List Ev :=
      hdr ++ sw.2 ++ [Ev.sleep 2000] ++ stp.2 ++ [Ev.sleep 2000] ++ sd.2 ++
        warn1 ++ [Ev.sleep 1000] ++ str.2 ++ warn2 ++
        [Ev.sessionActive minutes, Ev.expectedCompletion, Ev.progressLabel] ++
        pd.2
    if pd.1 then (.success, evs ++ [Ev.doneMsg, Ev.sessionCompleted t])
    else (.interrupted, evs)
  else (.failure, hdr ++ sw.2)

/-- `start_work_timer`: run a work session at `work_duration`. -/
def start_work_timer (pa : PomodoroAutomation) (e : SessEnv) :
    SessResult × List Ev :=
  run_session e .work pa.work_duration

/-- `start_break_timer`: run a break session at `break_duration`. -/
def start_break_timer (pa : PomodoroAutomation) (e : SessEnv) :
    SessResult × List Ev :=
  run_session e .brk pa.break_duration

/-- Driver-stub outcomes for one iteration of the main loop: the work
session's environment and the break session's environment. -/
structure IterEnv where
  work : SessEnv
  brk : SessEnv

/-- The `while True` body of `main_loop`, run over the observed prefix
`iters` of the infinite schedule, carrying the running `session_count`.
Each iteration first increments `session_count` and prints the cycle
header, then runs the work session; on its failure it logs, sleeps 5 s,
and continues with the next iteration; otherwise it runs the break
session with the same failure handling; when both succeed it logs the
cycle-completed line.  Returns the final `session_count`, whether a
`KeyboardInterrupt` ended the loop, and the events of the loop body.
When `iters` runs out without an interrupt the real loop would continue;
theorems about loop termination therefore assume an interrupt occurs. -/
def loop_run (pa : PomodoroAutomation) :
    Nat → List IterEnv → Nat × Bool × List Ev
  | count, [] => (count, false, [])
  | count, it :: rest =>
    let c := count + 1
    let hdr : List Ev := [Ev.cycleHeader c]
    let w := start_work_timer pa it.work
    match w.1 with
    | .interrupted => (c, true, hdr ++ w.2)
    | .failure =>
      let r := loop_run pa c rest
      (r.1, r.2.1, hdr ++ w.2 ++ [Ev.errorWorkRetry, Ev.sleep 5000] ++ r.2.2)
    | .success =>
      let b := start_break_timer pa it.brk
      match b.1 with
      | .interrupted => (c, true, hdr ++ w.2 ++ b.2)
      | .failure =>
        let r := loop_run pa c rest
        (r.1, r.2.1,
          hdr ++ w.2 ++ b.2 ++ [Ev.errorBreakRetry, Ev.sleep 5000] ++ r.2.2)
      | .success =>
        let r := loop_run pa c rest
        (r.1, r.2.1, hdr ++ w.2 ++ b.2 ++ [Ev.cycleCompleted c] ++ r.2.2)

/-- Stub outcome for `cleanup`: whether `driver.quit()` raises. -/
structure CleanupEnv where
  quitRaises : Bool

/-- `cleanup`: print the cleaning-up line, quit the driver, print the
goodbye line; any exception is swallowed by the bare `except: pass`, so
the function always returns normally. -/
def cleanup (ce : CleanupEnv) : List Ev :=
  if ce.quitRaises then [Ev.cleaningUp]
  else [Ev.cleaningUp, Ev.goodbye]

/-- `main_loop`: print the banner, run the loop body; a
`KeyboardInterrupt` is caught and the stopped-by-user summary printed;
the `finally` block runs `cleanup` exactly once on every exit path.
Returns the final `session_count` and the full event trace. -/
def main_loop (pa : PomodoroAutomation) (ce : CleanupEnv)
    (iters : List IterEnv) : Nat × List Ev :=
  let r := loop_run pa 0 iters
  (r.1,
    Ev.loopBanner :: r.2.2 ++
      (if r.2.1 then [Ev.stoppedByUser, Ev.totalSessions r.1] else []) ++
      cleanup ce)

/-- Process-level stub outcomes for `run` and `main`.  `setupBrowserOk`:
`setup_browser` (browser acquisition) returns `True`; `setupTabsOk`:
`setup_tabs` returns `True`; `importsOk`: the required packages import;
`topRaises`: an `Exception` reaches `main`'s top-level handler (e.g.
raised while constructing the automation object). -/
structure RunEnv where
  setupBrowserOk : Bool
  setupTabsOk : Bool
  importsOk : Bool
  topRaises : Bool
  pa : PomodoroAutomation
  cleanupEnv : CleanupEnv
  iters : List IterEnv

/-- `run`: on browser-setup failure print remediation text and
`sys.exit(1)`; on tab-setup failure run `cleanup` and `sys.exit(1)`;
otherwise run `main_loop` and return normally.  The first component is
`some c` when `sys.exit(c)` was called, `none` on a normal return. -/
def run (env : RunEnv) : Option Nat × List Ev :=
  if env.setupBrowserOk then
    if env.setupTabsOk then
      let r := main_loop env.pa env.cleanupEnv env.iters
      (none, r.2)
    else (some 1, cleanup env.cleanupEnv)
  else (some 1, [])

/-- `main`: missing packages exit with code 1; an `Exception` caught by
the top-level handler exits with code 1; a `sys.exit(c)` raised inside
`run` is a `SystemExit`, which the `except Exception` clause does not
catch, so the process exits with `c`; a normal return from `run` lets
the interpreter exit with code 0. -/
def main (env : RunEnv) : Nat × List Ev :=
  if env.importsOk then
    if env.topRaises then (1, [])
    else
      match run env with
      | (some c, evs) => (c, evs)
      | (none, evs) => (0, evs)
  else (1, [])

/-! ## Trace observers and concrete stub inputs -/

/-- The session kinds attempted during a trace, in order, read off the
session-header lines. -/
def sessionsStarted (l : List Ev) : List SessionType :=
  l.filterMap fun e =>
    match e with
    | .sessionHeader t => some t
    | _ => none

/-- Recognises the cycle-completed log line. -/
def isCycleCompleted : Ev → Bool
  | .cycleCompleted _ => true
  | _ => false

/-- Recognises one progress marker. -/
def isDot : Ev → Bool
  | .dot => true
  | _ => false

/-- Recognises the entry line of `cleanup` (one per invocation). -/
def isCleaningUp : Ev → Bool
  | .cleaningUp => true
  | _ => false

/-- Events that a session body can emit (everything except the
path-probe, loop-level and cleanup messages). -/
def sessionEv : Ev → Bool
  | .foundBrave _ => false
  | .notFoundMsg => false
  | .searchedPathsMsg => false
  | .candidatePath _ => false
  | .loopBanner => false
  | .cycleHeader _ => false
  | .errorWorkRetry => false
  | .errorBreakRetry => false
  | .cycleCompleted _ => false
  | .stoppedByUser => false
  | .totalSessions _ => false
  | .cleaningUp => false
  | .goodbye => false
  | _ => true

/-- The candidate paths named in the not-found report of
`find_brave_path`. -/
def reportedPaths (l : List Ev) : List String :=
  l.filterMap fun e =>
    match e with
    | .candidatePath p => some p
    | _ => none

/-- Number of iterations of a schedule in which both sessions succeed
(a completed Work+Break pair). -/
def successfulPairs (pa : PomodoroAutomation) (iters : List IterEnv) : Nat :=
  iters.countP fun it =>
    decide ((start_work_timer pa it.work).1 = .success) &&
      decide ((start_break_timer pa it.brk).1 = .success)

/-- A session environment in which every driver call succeeds. -/
def okEnv : SessEnv :=
  { switchOk := true, refreshRaises := false, setScriptRaises := false
  , setFallbackRaises := false, startScriptRaises := false
  , startScriptResult := true, clickable := fun _ => false
  , interruptAtMinute := none }

/-- A session environment whose tab switch fails (the only soft failure
that fails a session). -/
def badSwitchEnv : SessEnv := { okEnv with switchOk := false }

/-- An iteration whose work session fails at the tab switch. -/
def badWorkIter : IterEnv := { work := badSwitchEnv, brk := okEnv }

/-- An iteration in which both sessions succeed. -/
def okIter : IterEnv := { work := okEnv, brk := okEnv }

/-- An iteration whose work session succeeds and whose break session
fails at the tab switch. -/
def brkFailIter : IterEnv := { work := okEnv, brk := badSwitchEnv }

/-- A session environment in which both duration-set attempts raise. -/
def badSetEnv : SessEnv :=
  { okEnv with
    setScriptRaises := true
    setFallbackRaises := true }

/-- A session environment whose scripted start lookup reports that no
start control was found and whose XPath selectors never resolve. -/
def noStartEnv : SessEnv :=
  { okEnv with startScriptResult := false }

/-- A session environment in which the reset, the duration-set and the
start-trigger all fail but the tab switch succeeds. -/
def allSoftFailEnv : SessEnv :=
  { okEnv with
    refreshRaises := true
    setScriptRaises := true
    setFallbackRaises := true
    startScriptRaises := true }

/-- An iteration whose work session is interrupted during the sleep of
its third minute. -/
def intrIter : IterEnv :=
  { work := { okEnv with interruptAtMinute := some 2 }, brk := okEnv }

/-- The automation object with its default configuration
(25-minute work, 5-minute break). -/
def pa0 : PomodoroAutomation := {}

/-- A process environment in which setup succeeds and the loop is
interrupted during the first work session; `driver.quit` raises during
teardown. -/
def okRunEnv : RunEnv :=
  { setupBrowserOk := true, setupTabsOk := true, importsOk := true
  , topRaises := false, pa := pa0, cleanupEnv := ⟨true⟩
  , iters := [intrIter] }

/-- A Linux filesystem stub on which no candidate path exists. -/
def emptyLinuxOs : OsEnv :=
  { system := .linux, pathExists := fun _ => false
  , expandvars := fun s => s
  , expanduser := fun s => "/home/user" ++ s.drop 1
  , join := fun a b => a ++ "/" ++ b }

/-- A Linux filesystem stub on which exactly `/usr/bin/brave` exists
(the second candidate). -/
def braveLinuxOs : OsEnv :=
  { emptyLinuxOs with pathExists := fun p => p == "/usr/bin/brave" }

/-! ## Helper lemmas -/

/-- The probe loop returns `none` exactly when no candidate exists. -/
theorem find_loop_eq_none_iff (env : OsEnv) (l : List String) :
    find_loop env l = none ↔ ∀ p ∈ l, env.pathExists p = false := by
  induction l with
  | nil => simp [find_loop]
  | cons a rest ih =>
    cases ha : env.pathExists a with
    | true => simp [find_loop, ha]
    | false => simp [find_loop, ha, ih]

/-- A path returned by the probe loop exists and every candidate listed
before it does not. -/
theorem find_loop_some_first (env : OsEnv) :
    ∀ l p, find_loop env l = some p →
      ∃ pre post, l = pre ++ p :: post ∧ env.pathExists p = true ∧
        ∀ q ∈ pre, env.pathExists q = false := by
  intro l
  induction l with
  | nil => intro p h; simp [find_loop] at h
  | cons a rest ih =>
    intro p h
    cases ha : env.pathExists a with
    | true =>
      rw [find_loop, ha, if_pos rfl, Option.some_inj] at h
      exact ⟨[], rest, by simp [h], h ▸ ha, by simp⟩
    | false =>
      rw [find_loop, ha] at h
      simp only [Bool.false_eq_true, if_false] at h
      obtain ⟨pre, post, hl, hp, hpre⟩ := ih p h
      refine ⟨a :: pre, post, by rw [hl]; rfl, hp, ?_⟩
      intro q hq
      rcases List.mem_cons.mp hq with hq | hq
      · exact hq ▸ ha
      · exact hpre q hq

/-- Reading the reported paths back off a list of candidate-path events
recovers the list. -/
theorem filterMap_candidate (l : List String) :
    (l.map Ev.candidatePath).filterMap
      (fun e => match e with | Ev.candidatePath p => some p | _ => none) =
      l := by
  induction l with
  | nil => rfl
  | cons a t ih => simp [List.filterMap_cons, ih]

/-- The path returned by `find_brave_path` is the probe loop's result. -/
theorem find_brave_path_fst (env : OsEnv) :
    (find_brave_path env).1 = find_loop env (possible_paths env) := by
  cases h : find_loop env (possible_paths env) <;> simp [find_brave_path, h]

/-! ## Claim theorems -/

/-- C4: `find_brave_path` probes the platform-specific ordered candidate
list and returns the first path in it that exists on the stubbed
filesystem; when no candidate exists it returns the failure value
`none`. -/
theorem find_brave_path_first_existing (env : OsEnv) :
    ((find_brave_path env).1 = none ↔
      ∀ p ∈ possible_paths env, env.pathExists p = false) ∧
    ∀ p, (find_brave_path env).1 = some p →
      ∃ pre post, possible_paths env = pre ++ p :: post ∧
        env.pathExists p = true ∧ ∀ q ∈ pre, env.pathExists q = false := by
  constructor
  · rw [find_brave_path_fst]
    exact find_loop_eq_none_iff env _
  · intro p h
    rw [find_brave_path_fst] at h
    exact find_loop_some_first env _ p h

/-- Witness for C4: on a Linux stub where exactly `/usr/bin/brave`
exists, `find_brave_path` returns it, it is the second candidate, and
the sole candidate before it does not exist. -/
theorem find_brave_path_first_existing_witness :
    (find_brave_path braveLinuxOs).1 = some "/usr/bin/brave" ∧
    ∃ pre post,
      possible_paths braveLinuxOs = pre ++ "/usr/bin/brave" :: post ∧
      braveLinuxOs.pathExists "/usr/bin/brave" = true ∧
      ∀ q ∈ pre, braveLinuxOs.pathExists q = false :=
  ⟨by decide, (find_brave_path_first_existing braveLinuxOs).2 _ (by decide)⟩

/-- C5, counterexample: on a Linux stub with no candidate present,
`find_brave_path` fails but does not report the full candidate list:
`/snap/bin/brave` is a candidate yet is never printed, and the reported
list differs from the candidate list (the source prints only
`possible_paths[:3]`). -/
theorem reports_full_list_counterexample :
    (find_brave_path emptyLinuxOs).1 = none ∧
    "/snap/bin/brave" ∈ possible_paths emptyLinuxOs ∧
    Ev.candidatePath "/snap/bin/brave" ∉ (find_brave_path emptyLinuxOs).2 ∧
    reportedPaths (find_brave_path emptyLinuxOs).2 ≠
      possible_paths emptyLinuxOs := by
  decide

/-- C5, amended: when no candidate path exists, `find_brave_path`
reports exactly the first three candidate paths (the source slices
`possible_paths[:3]` as examples) before returning the failure value. -/
theorem reported_paths_take_three (env : OsEnv)
    (h : (find_brave_path env).1 = none) :
    reportedPaths (find_brave_path env).2 = (possible_paths env).take 3 := by
  rw [find_brave_path_fst] at h
  simp only [find_brave_path, h, reportedPaths, List.filterMap_cons]
  exact filterMap_candidate _

/-- Witness for the amended C5 on the empty Linux stub. -/
theorem reported_paths_take_three_witness :
    (find_brave_path emptyLinuxOs).1 = none ∧
    reportedPaths (find_brave_path emptyLinuxOs).2 =
      (possible_paths emptyLinuxOs).take 3 :=
  ⟨by decide, reported_paths_take_three emptyLinuxOs (by decide)⟩

/-! ## Session-level lemmas -/

/-- Without a pending interrupt the progress loop runs to completion. -/
theorem progress_dots_none_fst (i n : Nat) :
    (progress_dots none i n).1 = true := by
  induction n generalizing i with
  | zero => rfl
  | succ n ih => simp [progress_dots, ih]

/-- Without a pending interrupt the progress loop emits exactly one dot
per minute. -/
theorem progress_dots_none_count (i n : Nat) :
    ((progress_dots none i n).2).countP isDot = n := by
  induction n generalizing i with
  | zero => rfl
  | succ n ih =>
    simp [progress_dots, List.countP_cons, isDot, ih, Nat.add_comm]

/-- `switch_tab` emits no progress marker. -/
theorem countP_isDot_switch_tab (e : SessEnv) :
    ((switch_tab e).2).countP isDot = 0 := by
  cases h : e.switchOk <;> simp [switch_tab, h, isDot]

/-- `stop_timer` emits no progress marker. -/
theorem countP_isDot_stop_timer (e : SessEnv) :
    ((stop_timer e).2).countP isDot = 0 := by
  cases h : e.refreshRaises <;> simp [stop_timer, h, isDot]

/-- `set_timer_duration` emits no progress marker. -/
theorem countP_isDot_set_timer_duration (e : SessEnv) (m : Nat) :
    ((set_timer_duration e m).2).countP isDot = 0 := by
  cases h1 : e.setScriptRaises <;> cases h2 : e.setFallbackRaises <;>
    simp [set_timer_duration, h1, h2, isDot]

/-- `start_timer` emits no progress marker. -/
theorem countP_isDot_start_timer (e : SessEnv) :
    ((start_timer e).2).countP isDot = 0 := by
  cases h1 : e.startScriptRaises <;> cases h2 : e.startScriptResult <;>
    cases h3 : selectors.find? e.clickable <;>
      simp [start_timer, h1, h2, h3, isDot]

/-- Result of a session: when the tab switch succeeds and no interrupt
is pending the session reports success, otherwise the failed switch is
the sole failure exit. -/
theorem run_session_result (e : SessEnv) (t : SessionType) (m : Nat)
    (hi : e.interruptAtMinute = none) :
    (run_session e t m).1 = if e.switchOk then .success else .failure := by
  cases h : e.switchOk with
  | false => simp [run_session, switch_tab, h]
  | true =>
    have hpd : (progress_dots e.interruptAtMinute 0 m).1 = true := by
      rw [hi]; exact progress_dots_none_fst 0 m
    simp [run_session, switch_tab, h, hpd]

/-- Dot count of a completed session equals the configured duration. -/
theorem run_session_dot_count (e : SessEnv) (t : SessionType) (m : Nat)
    (hsw : e.switchOk = true) (hi : e.interruptAtMinute = none) :
    ((run_session e t m).2).countP isDot = m := by
  have hpd : (progress_dots e.interruptAtMinute 0 m).1 = true := by
    rw [hi]; exact progress_dots_none_fst 0 m
  have hpc : ((progress_dots e.interruptAtMinute 0 m).2).countP isDot = m := by
    rw [hi]; exact progress_dots_none_count 0 m
  cases hsd : (set_timer_duration e m).1 <;>
    cases hst : (start_timer e).1 <;>
      simp [run_session, switch_tab, hsw, hpd, hpc, hsd, hst,
        List.countP_append, List.countP_cons, isDot,
        countP_isDot_switch_tab, countP_isDot_stop_timer,
        countP_isDot_set_timer_duration, countP_isDot_start_timer]

/-- C3: for every configured duration (the `work_duration` /
`break_duration` field, any natural number), a session whose tab switch
succeeds and is not interrupted emits exactly that many progress
markers before returning. -/
theorem session_emits_duration_dots (pa : PomodoroAutomation) (e : SessEnv)
    (hsw : e.switchOk = true) (hi : e.interruptAtMinute = none) :
    ((start_work_timer pa e).2).countP isDot = pa.work_duration ∧
    ((start_break_timer pa e).2).countP isDot = pa.break_duration :=
  ⟨run_session_dot_count e .work pa.work_duration hsw hi,
   run_session_dot_count e .brk pa.break_duration hsw hi⟩

/-- Witness for C3 at the default configuration (25-minute work,
5-minute break) and the all-good stub driver. -/
theorem session_emits_duration_dots_witness :
    ((start_work_timer pa0 okEnv).2).countP isDot = 25 ∧
    ((start_break_timer pa0 okEnv).2).countP isDot = 5 :=
  session_emits_duration_dots pa0 okEnv rfl rfl

/-- C6: when both duration-set attempts raise (`setScriptRaises` and
`setFallbackRaises`), a work session that switched tabs and is not
interrupted still logs the could-not-set-duration warning, still
announces the active session and runs the full minute-sleep loop, and
returns success rather than failing. -/
theorem duration_set_failure_still_completes (pa : PomodoroAutomation)
    (e : SessEnv) (hsw : e.switchOk = true) (h1 : e.setScriptRaises = true)
    (h2 : e.setFallbackRaises = true) (hi : e.interruptAtMinute = none) :
    (start_work_timer pa e).1 = .success ∧
    Ev.warnCouldNotSetDuration ∈ (start_work_timer pa e).2 ∧
    Ev.sessionActive pa.work_duration ∈ (start_work_timer pa e).2 ∧
    ((start_work_timer pa e).2).countP isDot = pa.work_duration := by
  have hpd : (progress_dots e.interruptAtMinute 0 pa.work_duration).1 = true := by
    rw [hi]; exact progress_dots_none_fst 0 _
  refine ⟨?_, ?_, ?_, run_session_dot_count e .work pa.work_duration hsw hi⟩
  · rw [start_work_timer, run_session_result e .work pa.work_duration hi, hsw]
    rfl
  · simp [start_work_timer, run_session, switch_tab, hsw, hpd,
      set_timer_duration, h1, h2]
  · simp [start_work_timer, run_session, switch_tab, hsw, hpd]

/-- Witness for C6: the all-good environment with both duration-set
attempts raising. -/
theorem duration_set_failure_still_completes_witness :
    (start_work_timer pa0 badSetEnv).1 = .success ∧
    Ev.warnCouldNotSetDuration ∈ (start_work_timer pa0 badSetEnv).2 ∧
    Ev.sessionActive pa0.work_duration ∈ (start_work_timer pa0 badSetEnv).2 ∧
    ((start_work_timer pa0 badSetEnv).2).countP isDot = pa0.work_duration :=
  duration_set_failure_still_completes pa0 badSetEnv rfl rfl rfl rfl

/-- C7: when the scripted lookup reports no start control
(`startScriptResult = false`, no exception) and no XPath selector
resolves to a clickable button, `start_timer` logs that the start button
was not found and returns success anyway. -/
theorem start_timer_not_found_returns_success (e : SessEnv)
    (h1 : e.startScriptRaises = false) (h2 : e.startScriptResult = false)
    (h3 : ∀ s ∈ selectors, e.clickable s = false) :
    (start_timer e).1 = true ∧
    Ev.couldNotFindStartButton ∈ (start_timer e).2 := by
  have hf : selectors.find? e.clickable = none := by
    rw [List.find?_eq_none]
    intro x hx
    simp [h3 x hx]
  simp [start_timer, h1, h2, hf]

/-- Witness for C7: a driver whose scripted lookup returns `false` and
whose selectors never become clickable. -/
theorem start_timer_not_found_returns_success_witness :
    (start_timer noStartEnv).1 = true ∧
    Ev.couldNotFindStartButton ∈ (start_timer noStartEnv).2 :=
  start_timer_not_found_returns_success noStartEnv rfl rfl (by decide)

/-- C10: a session returns failure exactly when the initial tab switch
fails; failures of the reset, of duration-setting and of start-triggering
never fail the session, so whenever `switch_tab` succeeds (and no
interrupt arrives) the session returns success. -/
theorem session_fails_only_on_switch (pa : PomodoroAutomation) (e : SessEnv)
    (hi : e.interruptAtMinute = none) :
    ((start_work_timer pa e).1 = .success ↔ e.switchOk = true) ∧
    ((start_break_timer pa e).1 = .success ↔ e.switchOk = true) := by
  rw [start_work_timer, start_break_timer,
    run_session_result e .work pa.work_duration hi,
    run_session_result e .brk pa.break_duration hi]
  cases h : e.switchOk <;> simp

/-- Witness for C10: an environment in which the reset, the duration-set
and the start-trigger all fail, yet the session succeeds because the tab
switch succeeded. -/
theorem session_fails_only_on_switch_witness :
    ((start_work_timer pa0 allSoftFailEnv).1 = .success ↔
      allSoftFailEnv.switchOk = true) ∧
    ((start_break_timer pa0 allSoftFailEnv).1 = .success ↔
      allSoftFailEnv.switchOk = true) :=
  session_fails_only_on_switch pa0 allSoftFailEnv rfl

/-! ## Loop-level lemmas -/

/-- The progress loop emits only session events: any predicate false on
session events counts zero there. -/
theorem progress_dots_countP_zero (p : Ev → Bool)
    (hp : ∀ x, sessionEv x = true → p x = false) (intr : Option Nat) :
    ∀ i n, ((progress_dots intr i n).2).countP p = 0 := by
  have hd : p Ev.dot = false := hp _ rfl
  have hs : p (Ev.sleep 60000) = false := hp _ rfl
  intro i n
  induction n generalizing i with
  | zero => rfl
  | succ n ih =>
    by_cases h : intr = some i <;>
      simp [progress_dots, h, List.countP_cons, hd, hs, ih]

/-- A session body emits only session events: any predicate false on
session events counts zero over a session trace. -/
theorem run_session_countP_zero (p : Ev → Bool)
    (hp : ∀ x, sessionEv x = true → p x = false)
    (e : SessEnv) (t : SessionType) (m : Nat) :
    ((run_session e t m).2).countP p = 0 := by
  have a1 : p (Ev.sessionHeader t) = false := hp _ rfl
  have a2 : p Ev.errorSwitchingTabs = false := hp _ rfl
  have a3 : ∀ n, p (Ev.sleep n) = false := fun n => hp _ rfl
  have a4 : p Ev.errorStoppingTimer = false := hp _ rfl
  have a5 : p (Ev.timerSet m) = false := hp _ rfl
  have a6 : p Ev.errorSettingTimerDuration = false := hp _ rfl
  have a7 : p Ev.warnCouldNotSetDuration = false := hp _ rfl
  have a8 : p Ev.timerStarted = false := hp _ rfl
  have a9 : p Ev.couldNotFindStartButton = false := hp _ rfl
  have a10 : p Ev.errorStartingTimer = false := hp _ rfl
  have a11 : p Ev.warnCouldNotStartTimer = false := hp _ rfl
  have a12 : p (Ev.sessionActive m) = false := hp _ rfl
  have a13 : p Ev.expectedCompletion = false := hp _ rfl
  have a14 : p Ev.progressLabel = false := hp _ rfl
  have a15 : p Ev.doneMsg = false := hp _ rfl
  have a16 : p (Ev.sessionCompleted t) = false := hp _ rfl
  have hpd0 := progress_dots_countP_zero p hp e.interruptAtMinute 0 m
  cases hsw : e.switchOk <;> cases hrr : e.refreshRaises <;>
    cases hs1 : e.setScriptRaises <;> cases hs2 : e.setFallbackRaises <;>
      cases hr1 : e.startScriptRaises <;> cases hr2 : e.startScriptResult <;>
        cases hf : selectors.find? e.clickable <;>
          cases hpd : (progress_dots e.interruptAtMinute 0 m).1 <;>
            simp [run_session, switch_tab, stop_timer, set_timer_duration,
              start_timer, hsw, hrr, hs1, hs2, hr1, hr2, hf, hpd, hpd0,
              List.countP_append, List.countP_cons, a1, a2, a3, a4, a5, a6,
              a7, a8, a9, a10, a11, a12, a13, a14, a15, a16]

/-- The loop body never invokes `cleanup`: its trace contains no
cleaning-up line. -/
theorem loop_run_countP_isCleaningUp (pa : PomodoroAutomation) :
    ∀ c iters, ((loop_run pa c iters).2.2).countP isCleaningUp = 0 := by
  have hp : ∀ x, sessionEv x = true → isCleaningUp x = false := by
    intro x
    cases x <;> simp [sessionEv, isCleaningUp]
  intro c iters
  induction iters generalizing c with
  | nil => rfl
  | cons it rest ih =>
    have hw0 : ((start_work_timer pa it.work).2).countP isCleaningUp = 0 :=
      run_session_countP_zero isCleaningUp hp it.work .work pa.work_duration
    have hb0 : ((start_break_timer pa it.brk).2).countP isCleaningUp = 0 :=
      run_session_countP_zero isCleaningUp hp it.brk .brk pa.break_duration
    cases hw : (start_work_timer pa it.work).1 <;>
      cases hb : (start_break_timer pa it.brk).1 <;>
        simp [loop_run, hw, hb, List.countP_append, List.countP_cons,
          isCleaningUp, hw0, hb0, ih]

/-- Every session trace begins with its session-header line. -/
theorem run_session_starts_with_header (e : SessEnv) (t : SessionType)
    (m : Nat) : ∃ tl, (run_session e t m).2 = Ev.sessionHeader t :: tl := by
  cases hsw : (switch_tab e).1 <;>
    cases hpd : (progress_dots e.interruptAtMinute 0 m).1 <;>
      simp [run_session, hsw, hpd]

/-- Every non-empty schedule makes the loop body open with the cycle
header of the next count followed by a work-session header: each
iteration begins with a work session. -/
theorem loop_run_starts_with_work (pa : PomodoroAutomation) (c : Nat)
    (it : IterEnv) (rest : List IterEnv) :
    ∃ tl, (loop_run pa c (it :: rest)).2.2 =
      Ev.cycleHeader (c + 1) :: Ev.sessionHeader .work :: tl := by
  obtain ⟨tl, htl⟩ :=
    run_session_starts_with_header it.work .work pa.work_duration
  have htl2 : (start_work_timer pa it.work).2 =
      Ev.sessionHeader .work :: tl := htl
  cases hw : (start_work_timer pa it.work).1 <;>
    cases hb : (start_break_timer pa it.brk).1 <;>
      · simp only [loop_run, hw, hb, htl2]
        exact ⟨_, rfl⟩

/-- C1, counterexample: on a schedule of one iteration whose work
session fails, the cycle counter (`session_count`) already reads 1
although no Work+Break pair succeeded — the source increments the
counter at the top of every iteration, before the work session runs,
so it does increment on a failed pair. -/
theorem cycle_counter_counterexample :
    (loop_run pa0 0 [badWorkIter]).1 = 1 ∧
    ((loop_run pa0 0 [badWorkIter]).2.2).countP isCycleCompleted = 0 ∧
    (1 : Nat) ≠ 0 := by
  decide

/-- C1, amended: `session_count` increments by exactly 1 at the top of
every loop iteration, whether or not its sessions succeed, so after an
uninterrupted schedule it equals the number of iterations started; the
cycle-completed log line, by contrast, is emitted exactly once per
iteration in which both sessions succeed. -/
theorem cycle_counter_amended (pa : PomodoroAutomation)
    (iters : List IterEnv) (c : Nat)
    (h : ∀ it ∈ iters, it.work.interruptAtMinute = none ∧
      it.brk.interruptAtMinute = none) :
    (loop_run pa c iters).1 = c + iters.length ∧
    ((loop_run pa c iters).2.2).countP isCycleCompleted =
      successfulPairs pa iters := by
  have hcc : ∀ x, sessionEv x = true → isCycleCompleted x = false := by
    intro x
    cases x <;> simp [sessionEv, isCycleCompleted]
  induction iters generalizing c with
  | nil => simp [loop_run, successfulPairs]
  | cons it rest ih =>
    obtain ⟨hwi, hbi⟩ := h it (List.mem_cons_self it rest)
    have hrest : ∀ it2 ∈ rest, it2.work.interruptAtMinute = none ∧
        it2.brk.interruptAtMinute = none :=
      fun it2 hit2 => h it2 (List.mem_cons_of_mem it hit2)
    have hw0 : ((start_work_timer pa it.work).2).countP isCycleCompleted = 0 :=
      run_session_countP_zero isCycleCompleted hcc it.work .work
        pa.work_duration
    have hb0 : ((start_break_timer pa it.brk).2).countP isCycleCompleted = 0 :=
      run_session_countP_zero isCycleCompleted hcc it.brk .brk
        pa.break_duration
    have hwr : (start_work_timer pa it.work).1 =
        if it.work.switchOk then .success else .failure :=
      run_session_result it.work .work pa.work_duration hwi
    have hbr : (start_break_timer pa it.brk).1 =
        if it.brk.switchOk then .success else .failure :=
      run_session_result it.brk .brk pa.break_duration hbi
    obtain ⟨h1, h2⟩ := ih (c + 1) hrest
    cases hws : it.work.switchOk <;> cases hbs : it.brk.switchOk <;>
      · rw [hws] at hwr
        rw [hbs] at hbr
        simp only [if_true, if_false, Bool.false_eq_true, ite_false,
          ite_true] at hwr hbr
        simp [loop_run, hwr, hbr, List.countP_append, List.countP_cons,
          isCycleCompleted, hw0, hb0, h1, h2, successfulPairs,
          List.length_cons]
        omega

/-- Witness for the amended C1: a break failure followed by a clean
cycle gives a final count of 2 with exactly 1 completed pair. -/
theorem cycle_counter_amended_witness :
    (loop_run pa0 0 [brkFailIter, okIter]).1 =
      0 + [brkFailIter, okIter].length ∧
    ((loop_run pa0 0 [brkFailIter, okIter]).2.2).countP isCycleCompleted =
      successfulPairs pa0 [brkFailIter, okIter] :=
  cycle_counter_amended pa0 [brkFailIter, okIter] 0 (by decide)

/-- C2, counterexample: on the schedule whose first iteration has a
successful work session and a failing break session, the break failure
is logged but the next session attempted is a work session, not a retry
of the failed break — the sessions attempted are Work, Break, Work,
Break, and the two session kinds differ. -/
theorem retry_same_session_counterexample :
    Ev.errorBreakRetry ∈ (loop_run pa0 0 [brkFailIter, okIter]).2.2 ∧
    sessionsStarted (loop_run pa0 0 [brkFailIter, okIter]).2.2 =
      [.work, .brk, .work, .brk] ∧
    SessionType.work ≠ SessionType.brk := by
  decide

/-- C2, amended: after a soft session failure the loop logs the failure
and sleeps a fixed 5-second back-off, then restarts the iteration from
the top, discarding the failed attempt's state; the next iteration
always begins with a work session, so a failed work session is retried
directly while a failed break session is followed by a fresh work
session rather than a break retry. -/
theorem backoff_and_restart_from_top (pa : PomodoroAutomation) (c : Nat)
    (it : IterEnv) (rest : List IterEnv) :
    ((start_work_timer pa it.work).1 = .failure →
      (loop_run pa c (it :: rest)).2.2 =
        Ev.cycleHeader (c + 1) :: (start_work_timer pa it.work).2 ++
          [Ev.errorWorkRetry, Ev.sleep 5000] ++
          (loop_run pa (c + 1) rest).2.2) ∧
    ((start_work_timer pa it.work).1 = .success →
      (start_break_timer pa it.brk).1 = .failure →
      (loop_run pa c (it :: rest)).2.2 =
        Ev.cycleHeader (c + 1) :: (start_work_timer pa it.work).2 ++
          (start_break_timer pa it.brk).2 ++
          [Ev.errorBreakRetry, Ev.sleep 5000] ++
          (loop_run pa (c + 1) rest).2.2) ∧
    (∀ it2 rest2, ∃ tl, (loop_run pa (c + 1) (it2 :: rest2)).2.2 =
      Ev.cycleHeader (c + 2) :: Ev.sessionHeader .work :: tl) := by
  refine ⟨?_, ?_, ?_⟩
  · intro hw
    simp [loop_run, hw]
  · intro hw hb
    simp [loop_run, hw, hb]
  · intro it2 rest2
    exact loop_run_starts_with_work pa (c + 1) it2 rest2

/-- Witness for the amended C2 on the concrete break-failure schedule. -/
theorem backoff_and_restart_from_top_witness :
    (loop_run pa0 0 [brkFailIter, okIter]).2.2 =
      Ev.cycleHeader 1 :: (start_work_timer pa0 brkFailIter.work).2 ++
        (start_break_timer pa0 brkFailIter.brk).2 ++
        [Ev.errorBreakRetry, Ev.sleep 5000] ++
        (loop_run pa0 1 [okIter]).2.2 ∧
    ∃ tl, (loop_run pa0 1 [okIter]).2.2 =
      Ev.cycleHeader 2 :: Ev.sessionHeader .work :: tl :=
  ⟨(backoff_and_restart_from_top pa0 0 brkFailIter [okIter]).2.1
      (by decide) (by decide),
   (backoff_and_restart_from_top pa0 0 brkFailIter [okIter]).2.2 okIter []⟩

/-- C9: when a `KeyboardInterrupt` delivered during a session's
minute-sleep loop ends the loop body, `main_loop` invokes `cleanup`
exactly once (its `finally` block), for every teardown environment —
in particular also when `driver.quit` raises, because `cleanup`
swallows its own exceptions and returns normally. -/
theorem interrupt_invokes_cleanup_once (pa : PomodoroAutomation)
    (ce : CleanupEnv) (iters : List IterEnv)
    (h : (loop_run pa 0 iters).2.1 = true) :
    ((main_loop pa ce iters).2).countP isCleaningUp = 1 := by
  cases hq : ce.quitRaises <;>
    simp [main_loop, h, cleanup, hq, List.countP_append, List.countP_cons,
      isCleaningUp, loop_run_countP_isCleaningUp]

/-- Witness for C9: the work session of the only scheduled iteration is
interrupted at its third minute and teardown itself raises; cleanup is
still invoked exactly once. -/
theorem interrupt_invokes_cleanup_once_witness :
    (loop_run pa0 0 [intrIter]).2.1 = true ∧
    ((main_loop pa0 ⟨true⟩ [intrIter]).2).countP isCleaningUp = 1 :=
  ⟨by decide, interrupt_invokes_cleanup_once pa0 ⟨true⟩ [intrIter] (by decide)⟩

/-- C8: the process exits with code 1 when browser acquisition fails,
with code 1 when initial tab setup fails, with code 1 when an uncaught
error reaches the top-level handler, and with code 0 (after running
`cleanup`) when the loop ends by a normal interruption. -/
theorem exit_codes (env : RunEnv) :
    (env.importsOk = true → env.topRaises = false →
      env.setupBrowserOk = false → (main env).1 = 1) ∧
    (env.importsOk = true → env.topRaises = false →
      env.setupBrowserOk = true → env.setupTabsOk = false →
      (main env).1 = 1) ∧
    (env.importsOk = true → env.topRaises = true → (main env).1 = 1) ∧
    (env.importsOk = true → env.topRaises = false →
      env.setupBrowserOk = true → env.setupTabsOk = true →
      (loop_run env.pa 0 env.iters).2.1 = true →
      (main env).1 = 0 ∧ Ev.cleaningUp ∈ (main env).2) := by
  refine ⟨?_, ?_, ?_, ?_⟩
  · intro h1 h2 h3
    simp [main, run, h1, h2, h3]
  · intro h1 h2 h3 h4
    simp [main, run, h1, h2, h3, h4]
  · intro h1 h2
    simp [main, h1, h2]
  · intro h1 h2 h3 h4 h5
    cases hq : env.cleanupEnv.quitRaises <;>
      simp [main, run, main_loop, cleanup, h1, h2, h3, h4, h5, hq]

/-- Witness for C8: with setup succeeding and the loop interrupted in
its first work session, the process exits 0 and the cleanup line is in
the trace. -/
theorem exit_codes_witness :
    (main okRunEnv).1 = 0 ∧ Ev.cleaningUp ∈ (main okRunEnv).2 :=
  (exit_codes okRunEnv).2.2.2 rfl rfl rfl rfl (by decide)

end PomodoroTimer

